import Mathlib

/-!
Shallow embedding of the authentication/session core of the takteeki backend
(src/services/auth.service.ts, src/repositories/RefreshToken.repository.ts,
src/repositories/User.repository.ts, src/routes/auth.routes.ts).

Time is modelled as `Int` milliseconds since the epoch; a JavaScript
`Invalid Date` (NaN time value) is modelled as `none : Option Int`.
Database state is modelled as lists of records; TypeORM `find` filters become
`List.find?` over boolean predicates taken verbatim from the `where` clauses.
External collaborators (jsonwebtoken, bcryptjs, crypto, validator.js) are
modelled symbolically: the JWT is a transparent record carrying its payload,
signing secret and expiry window; bcrypt hashing/comparison are parameters.
-/

namespace Takteeki

/-- Enumerated roles, from src/types/auth.ts `UserRole`. -/
inductive UserRole
  | user
  | admin
  | moderator
deriving DecidableEq

/-- User entity row: id and soft-delete marker come from the shared base
entity; name, email, password (hash), role and active flag are used by
AuthService.  `deletedAt = none` means the row is not soft-deleted. -/
structure User where
  id : String
  name : String
  email : String
  password : String
  role : UserRole
  isActive : Bool
  deletedAt : Option Int
deriving DecidableEq

/-- Refresh-token entity row, from RefreshToken.entity.ts: token string,
owning userId, expiry timestamp, active flag, optional client metadata and
the soft-delete marker.  `expiresAt = none` models an Invalid Date. -/
structure RefreshToken where
  token : String
  userId : String
  expiresAt : Option Int
  isActive : Bool
  userAgent : Option String
  ipAddress : Option String
  deletedAt : Option Int
deriving DecidableEq

/-- Access-token claims, from src/types/auth.ts `JWTPayload`. -/
structure JWTPayload where
  userId : String
  email : String
  role : UserRole
deriving DecidableEq

/-- Symbolic model of a signed JWT string: the claims, the secret it was
signed with, its issue time and its absolute expiry time.  Possession of a
value of this type plays the role of possession of the signed string. -/
structure SignedToken where
  payload : JWTPayload
  secret : String
  iat : Int
  exp : Int
deriving DecidableEq

/-- Operational error, from src/middleware/errorHandler.ts `AppError`:
a message plus an HTTP status code. -/
structure AppError where
  message : String
  statusCode : Nat
deriving DecidableEq

/-- Derived `status` field of AppError: 'fail' for 4xx, 'error' otherwise. -/
def AppError.status (e : AppError) : String :=
  if 400 ≤ e.statusCode ∧ e.statusCode < 500 then "fail" else "error"

/-- JWT signing configuration, from src/config/env `config.jwt`:
signing secret, access-token TTL (milliseconds here), and the refresh-token
TTL as the raw configuration string (e.g. "30d"). -/
structure JwtConfig where
  secret : String
  expiresIn : Int
  refreshExpiresIn : String
deriving DecidableEq

/-- Whole persistent state touched by the auth core: the users table and the
refresh_tokens table. -/
structure AuthState where
  users : List User
  tokens : List RefreshToken
deriving DecidableEq

/-- Registration input, from src/types/auth.ts `RegisterDto`. -/
structure RegisterDto where
  name : String
  email : String
  password : String
  role : Option UserRole
deriving DecidableEq

/-- Login input, from src/types/auth.ts `LoginDto`. -/
structure LoginDto where
  email : String
  password : String
deriving DecidableEq

/-- Public identity fields returned by register/login. -/
structure UserPublic where
  id : String
  name : String
  email : String
  role : UserRole
deriving DecidableEq

/-- Success shape of register/login, from src/types/auth.ts `AuthResponse`
(the constant `status : 'success'` field is omitted). -/
structure AuthResponse where
  token : SignedToken
  refreshToken : String
  user : UserPublic
deriving DecidableEq

/-- Input of the refresh endpoint, from src/types/auth.ts `RefreshTokenDto`. -/
structure RefreshTokenDto where
  refreshToken : String
deriving DecidableEq

/-- Success shape of refresh, from src/types/auth.ts `RefreshTokenResponse`
(constant `status` field omitted). -/
structure RefreshTokenResponse where
  token : SignedToken
  refreshToken : String
deriving DecidableEq

namespace Jwt

/-- Model of `jwt.sign(payload, secret, { expiresIn })` invoked at time
`now`: records payload, secret, issue time and absolute expiry. -/
def sign (payload : JWTPayload) (secret : String) (expiresIn : Int) (now : Int) : SignedToken :=
  { payload := payload, secret := secret, iat := now, exp := now + expiresIn }

/-- Model of `jwt.verify(token, secret)` evaluated at time `now`: succeeds
exactly when the token was signed with the same secret and its expiry is
still in the future; otherwise (bad signature or expired) it throws, which
is modelled as `none`. -/
def verify (tok : SignedToken) (secret : String) (now : Int) : Option JWTPayload :=
  if tok.secret == secret && decide (now < tok.exp) then some tok.payload else none

end Jwt

/-- Model of validator.js `normalizeEmail()` with its default options
(`all_lowercase: true`): the address is lowercased character by character.
Provider-specific canonicalisation (gmail dot removal etc.) is not
modelled. -/
def normalizeEmail (s : String) : String := ⟨s.data.map Char.toLower⟩

namespace UserRepository

/-- UserRepository.findByEmail: `findOne({ where: { email, deletedAt: IsNull() } })`. -/
def findByEmail (users : List User) (email : String) : Option User :=
  users.find? fun u => u.email == email && u.deletedAt.isNone

/-- UserRepository.findById: `findOne({ where: { id, deletedAt: IsNull() } })`. -/
def findById (users : List User) (id : String) : Option User :=
  users.find? fun u => u.id == id && u.deletedAt.isNone

end UserRepository

namespace RefreshTokenRepository

/-- RefreshTokenRepository.findByToken:
`findOne({ where: { token, isActive: true, deletedAt: IsNull() }, relations: ['user'] })`.
The joined `user` relation is resolved separately (see AuthService). -/
def findByToken (tokens : List RefreshToken) (tok : String) : Option RefreshToken :=
  tokens.find? fun t => t.token == tok && t.isActive && t.deletedAt.isNone

/-- RefreshTokenRepository.revokeToken's row update:
`update({ token }, { isActive: false })` — every row whose token column
matches is set inactive; no isActive or deletedAt filter is applied. -/
def revokeToken (tokens : List RefreshToken) (tok : String) : List RefreshToken :=
  tokens.map fun t => if t.token == tok then { t with isActive := false } else t

/-- Boolean result of RefreshTokenRepository.revokeToken:
`result.affected > 0`, i.e. some row had a matching token column. -/
def revokeTokenAffected (tokens : List RefreshToken) (tok : String) : Bool :=
  tokens.any fun t => t.token == tok

/-- RefreshTokenRepository.revokeAllUserTokens's row update:
`update({ userId, isActive: true }, { isActive: false })` — only rows of the
given user that are currently active are touched. -/
def revokeAllUserTokens (tokens : List RefreshToken) (uid : String) : List RefreshToken :=
  tokens.map fun t => if t.userId == uid && t.isActive then { t with isActive := false } else t

/-- Boolean result of RefreshTokenRepository.revokeAllUserTokens. -/
def revokeAllAffected (tokens : List RefreshToken) (uid : String) : Bool :=
  tokens.any fun t => t.userId == uid && t.isActive

end RefreshTokenRepository

namespace AuthService

/-- Milliseconds in one day; `expirationDate.setDate(getDate() + days)` is
modelled as advancing the time value by `days` whole days. -/
def msPerDay : Int := 86400000

/-- Deletion of the first occurrence of the character 'd', the effect of the
JavaScript `expiresIn.replace('d', '')` (String.replace with a string
pattern replaces only the first occurrence). -/
def removeFirstD : List Char → List Char
  | [] => []
  | c :: cs => if c = 'd' then cs else c :: removeFirstD cs

/-- String version of `removeFirstD`. -/
def replaceD (s : String) : String := ⟨removeFirstD s.data⟩

/-- Longest prefix of decimal digits. -/
def takeDigits : List Char → List Char
  | [] => []
  | c :: cs => if c.isDigit then c :: takeDigits cs else []

/-- Numeric value of a digit list (most significant first). -/
def digitsVal (l : List Char) : Nat :=
  l.foldl (fun a c => a * 10 + (c.toNat - '0'.toNat)) 0

/-- Model of JavaScript `parseInt(s, 10)`: skip leading whitespace, read an
optional sign and then the longest run of decimal digits, ignoring any
trailing characters; `none` models NaN (no leading integer). -/
def jsParseInt (s : String) : Option Int :=
  let l := s.data.dropWhile fun c => c = ' ' || c = '\t' || c = '\n' || c = '\r'
  match l with
  | '-' :: rest =>
      let d := takeDigits rest
      if d.isEmpty then none else some (-(digitsVal d : Int))
  | '+' :: rest =>
      let d := takeDigits rest
      if d.isEmpty then none else some (digitsVal d)
  | _ =>
      let d := takeDigits l
      if d.isEmpty then none else some (digitsVal d)

/-- JavaScript `<` on a Date pair whose left side may be an Invalid Date:
`Invalid Date < now` is false (NaN comparison). -/
def dateLt : Option Int → Int → Bool
  | some t, now => decide (t < now)
  | none, _ => false

/-- AuthService.generateAccessToken: `jwt.sign(payload, config.jwt.secret,
{ expiresIn: config.jwt.expiresIn })`, at time `now`. -/
def generateAccessToken (cfg : JwtConfig) (now : Int) (payload : JWTPayload) : SignedToken :=
  Jwt.sign payload cfg.secret cfg.expiresIn now

/-- AuthService.verifyToken: `jwt.verify(token, config.jwt.secret)`, any
failure collapsed into `AppError('Invalid or expired token', 401)`. -/
def verifyToken (cfg : JwtConfig) (now : Int) (token : SignedToken) :
    Except AppError JWTPayload :=
  match Jwt.verify token cfg.secret now with
  | some p => .ok p
  | none => .error ⟨"Invalid or expired token", 401⟩

/-- AuthService.getRefreshTokenExpiration:
`parseInt(config.jwt.refreshExpiresIn.replace('d', ''), 10)` days added to
the current date; a NaN day count produces an Invalid Date (`none`). -/
def getRefreshTokenExpiration (cfg : JwtConfig) (now : Int) : Option Int :=
  (jsParseInt (replaceD cfg.refreshExpiresIn)).map fun days => now + days * msPerDay

/-- Row assembled by AuthService.createRefreshToken: the new token string,
the owning user, the computed expiry, `isActive: true`, and the client
metadata. -/
def sessionRecord (cfg : JwtConfig) (now : Int) (userId newToken : String)
    (ua ip : Option String) : RefreshToken :=
  { token := newToken, userId := userId,
    expiresAt := getRefreshTokenExpiration cfg now,
    isActive := true, userAgent := ua, ipAddress := ip, deletedAt := none }

/-- AuthService.createRefreshToken: builds the row and stores it via
RefreshTokenRepository.create (an insert).  The random token value produced
by `crypto.randomBytes(64).toString('hex')` is supplied by the caller as
`newToken`. -/
def createRefreshToken (cfg : JwtConfig) (now : Int) (st : AuthState)
    (userId : String) (newToken : String) (ua ip : Option String) : String × AuthState :=
  (newToken,
   { st with tokens := st.tokens ++ [sessionRecord cfg now userId newToken ua ip] })

/-- AuthService.verifyRefreshToken: looks the session up, lazily revokes it
when expired, rejects inactive sessions and inactive (or soft-deleted,
hence missing) owners, and otherwise returns the owner's current claims.
The `user` relation of the found row is resolved against the users table
excluding soft-deleted rows. -/
def verifyRefreshToken (st : AuthState) (now : Int) (tok : String) :
    Except AppError JWTPayload × AuthState :=
  match RefreshTokenRepository.findByToken st.tokens tok with
  | none => (.error ⟨"Invalid refresh token", 401⟩, st)
  | some rt =>
    if dateLt rt.expiresAt now then
      (.error ⟨"Refresh token expired", 401⟩,
       { st with tokens := RefreshTokenRepository.revokeToken st.tokens tok })
    else if !rt.isActive then
      (.error ⟨"Refresh token has been revoked", 401⟩, st)
    else
      match UserRepository.findById st.users rt.userId with
      | none => (.error ⟨"User account is deactivated", 403⟩, st)
      | some u =>
        if !u.isActive then
          (.error ⟨"User account is deactivated", 403⟩, st)
        else
          (.ok ⟨u.id, u.email, u.role⟩, st)

/-- User row assembled by AuthService.register and stored via
UserRepository.create: name, email and hashed password from the input, the
role defaulting to `UserRole.USER`, and the entity defaults (active, not
soft-deleted); the generated id is supplied as `newId`. -/
def registeredUser (hash : String → String) (newId : String) (data : RegisterDto) : User :=
  { id := newId, name := data.name, email := data.email,
    password := hash data.password, role := data.role.getD .user,
    isActive := true, deletedAt := none }

/-- AuthService.register: conflict check by email, password hashing (the
bcrypt hash function is a parameter), user creation (the generated id is
supplied as `newId`), then the same token issuance as login. -/
def register (cfg : JwtConfig) (hash : String → String) (now : Int)
    (newId newToken : String) (st : AuthState) (data : RegisterDto)
    (ua ip : Option String) : Except AppError AuthResponse × AuthState :=
  match UserRepository.findByEmail st.users data.email with
  | some _ => (.error ⟨"User with this email already exists", 409⟩, st)
  | none =>
    let user : User := registeredUser hash newId data
    let st1 : AuthState := { st with users := st.users ++ [user] }
    let accessToken := generateAccessToken cfg now ⟨user.id, user.email, user.role⟩
    let res := createRefreshToken cfg now st1 user.id newToken ua ip
    (.ok { token := accessToken, refreshToken := res.1,
           user := ⟨user.id, user.name, user.email, user.role⟩ }, res.2)

/-- AuthService.login: email lookup, active-account check, password
comparison (the bcrypt compare function is a parameter), then token
issuance. -/
def login (cfg : JwtConfig) (compare : String → String → Bool) (now : Int)
    (newToken : String) (st : AuthState) (data : LoginDto)
    (ua ip : Option String) : Except AppError AuthResponse × AuthState :=
  match UserRepository.findByEmail st.users data.email with
  | none => (.error ⟨"Invalid email or password", 401⟩, st)
  | some user =>
    if !user.isActive then
      (.error ⟨"Account is deactivated", 403⟩, st)
    else if !(compare data.password user.password) then
      (.error ⟨"Invalid email or password", 401⟩, st)
    else
      let accessToken := generateAccessToken cfg now ⟨user.id, user.email, user.role⟩
      let res := createRefreshToken cfg now st user.id newToken ua ip
      (.ok { token := accessToken, refreshToken := res.1,
             user := ⟨user.id, user.name, user.email, user.role⟩ }, res.2)

/-- AuthService.refreshToken: verifies the refresh token, mints a new access
token from the returned claims and reuses the same refresh token string. -/
def refreshToken (cfg : JwtConfig) (now : Int) (st : AuthState)
    (data : RefreshTokenDto) : Except AppError RefreshTokenResponse × AuthState :=
  match verifyRefreshToken st now data.refreshToken with
  | (.error e, st1) => (.error e, st1)
  | (.ok payload, st1) =>
    (.ok { token := generateAccessToken cfg now payload,
           refreshToken := data.refreshToken }, st1)

/-- AuthService.revokeRefreshToken (logout): delegates to the repository's
revokeToken and returns its boolean result; it never throws. -/
def revokeRefreshToken (st : AuthState) (tok : String) : Bool × AuthState :=
  (RefreshTokenRepository.revokeTokenAffected st.tokens tok,
   { st with tokens := RefreshTokenRepository.revokeToken st.tokens tok })

/-- AuthService.revokeAllUserTokens (logout-all): delegates to the
repository's bulk update. -/
def revokeAllUserTokens (st : AuthState) (uid : String) : Bool × AuthState :=
  (RefreshTokenRepository.revokeAllAffected st.tokens uid,
   { st with tokens := RefreshTokenRepository.revokeAllUserTokens st.tokens uid })

end AuthService

/-- The '/register' route's express-validator chain applies
`normalizeEmail()` to the email body field before the service call
(src/routes/auth.routes.ts). -/
def registerRoute (cfg : JwtConfig) (hash : String → String) (now : Int)
    (newId newToken : String) (st : AuthState) (data : RegisterDto)
    (ua ip : Option String) : Except AppError AuthResponse × AuthState :=
  AuthService.register cfg hash now newId newToken st
    { data with email := normalizeEmail data.email } ua ip

/-- The '/login' route's express-validator chain applies `normalizeEmail()`
to the email body field before the service call (src/routes/auth.routes.ts). -/
def loginRoute (cfg : JwtConfig) (compare : String → String → Bool) (now : Int)
    (newToken : String) (st : AuthState) (data : LoginDto)
    (ua ip : Option String) : Except AppError AuthResponse × AuthState :=
  AuthService.login cfg compare now newToken st
    { data with email := normalizeEmail data.email } ua ip

/-- Concrete configuration used by the witness scenarios. -/
def cfg0 : JwtConfig := { secret := "s3cr3t", expiresIn := 900000, refreshExpiresIn := "30d" }

/-- Concrete bcrypt-compare model used by the witness scenarios: a hash
matches exactly the password it was derived from. -/
def cmp0 : String → String → Bool := fun p h => h == "bcrypt." ++ p

/-- Concrete bcrypt-hash model used by the witness scenarios. -/
def hash0 : String → String := fun p => "bcrypt." ++ p

/-- Concrete access-token claims used by the witness scenarios. -/
def payload0 : JWTPayload := { userId := "u1", email := "jane@x.com", role := .user }

/-- Concrete active user used by the witness scenarios. -/
def user1 : User :=
  { id := "u1", name := "Jane", email := "jane@x.com", password := "bcrypt.secret1",
    role := .user, isActive := true, deletedAt := none }

/-- Concrete deactivated user used by the C5 counterexample. -/
def userInactive : User :=
  { id := "u2", name := "Bob", email := "bob@x.com", password := "bcrypt.secret1",
    role := .user, isActive := false, deletedAt := none }

/-- Concrete live session owned by `user1`. -/
def tokA1 : RefreshToken :=
  { token := "r1", userId := "u1", expiresAt := some 1000, isActive := true,
    userAgent := none, ipAddress := none, deletedAt := none }

/-- Concrete expired-but-still-active session owned by `user1`. -/
def tokExpired : RefreshToken :=
  { token := "rx", userId := "u1", expiresAt := some 100, isActive := true,
    userAgent := none, ipAddress := none, deletedAt := none }

/-- Concrete deactivated session owned by `user1`. -/
def tokRevoked : RefreshToken :=
  { token := "r2", userId := "u1", expiresAt := some 1000, isActive := false,
    userAgent := none, ipAddress := none, deletedAt := none }

/-- State with one active user and one live session. -/
def st0 : AuthState := { users := [user1], tokens := [tokA1] }

/-- State with one active user and one expired session still flagged active. -/
def stExp : AuthState := { users := [user1], tokens := [tokExpired] }

/-- State with one active user and one deactivated session. -/
def stRevoked : AuthState := { users := [user1], tokens := [tokRevoked] }

/-- State holding only a deactivated user. -/
def stC5 : AuthState := { users := [userInactive], tokens := [] }

/-- Empty state. -/
def stEmpty : AuthState := { users := [], tokens := [] }

/-- Session fixture for the logout-all scenario: first active session of
identity A. -/
def tokFleetA1 : RefreshToken :=
  { token := "a1", userId := "A", expiresAt := some 1000, isActive := true,
    userAgent := none, ipAddress := none, deletedAt := none }

/-- Second active session of identity A. -/
def tokFleetA2 : RefreshToken :=
  { token := "a2", userId := "A", expiresAt := some 1000, isActive := true,
    userAgent := some "ua2", ipAddress := some "ip2", deletedAt := none }

/-- Active session of identity B. -/
def tokFleetB1 : RefreshToken :=
  { token := "b1", userId := "B", expiresAt := some 1000, isActive := true,
    userAgent := none, ipAddress := none, deletedAt := none }

/-- State for the logout-all scenario: two active sessions for identity A
and one for identity B. -/
def stFleet : AuthState := { users := [], tokens := [tokFleetA1, tokFleetA2, tokFleetB1] }


theorem findByToken_revokeToken (tokens : List RefreshToken) (tok : String) :
    RefreshTokenRepository.findByToken (RefreshTokenRepository.revokeToken tokens tok) tok = none := by
  rw [RefreshTokenRepository.findByToken, List.find?_eq_none]
  intro x hx
  obtain ⟨s, hs, rfl⟩ := List.mem_map.mp hx
  by_cases h : s.token == tok <;> simp [h]

theorem revokeToken_idem (tokens : List RefreshToken) (tok : String) :
    RefreshTokenRepository.revokeToken (RefreshTokenRepository.revokeToken tokens tok) tok =
      RefreshTokenRepository.revokeToken tokens tok := by
  induction tokens with
  | nil => rfl
  | cons t ts ih =>
    simp only [RefreshTokenRepository.revokeToken, List.map_cons] at *
    rw [ih]
    by_cases h : t.token == tok <;> simp [h]

theorem revokeToken_inactive (tokens : List RefreshToken) (tok : String) :
    ∀ t ∈ RefreshTokenRepository.revokeToken tokens tok, t.token = tok → t.isActive = false := by
  intro t ht htok
  obtain ⟨s, hs, rfl⟩ := List.mem_map.mp ht
  by_cases h : s.token == tok
  · simp [h]
  · simp only [h, Bool.false_eq_true, if_false] at htok ⊢
    exact absurd htok (by simpa using h)

theorem revokeToken_mem_of_ne {tokens : List RefreshToken} {tok : String} {t : RefreshToken}
    (ht : t ∈ tokens) (hne : t.token ≠ tok) :
    t ∈ RefreshTokenRepository.revokeToken tokens tok := by
  unfold RefreshTokenRepository.revokeToken
  exact List.mem_map.mpr ⟨t, ht, by simp [hne]⟩

theorem verifyRefreshToken_ne_revoked (st : AuthState) (now : Int) (tok : String) :
    (AuthService.verifyRefreshToken st now tok).1 ≠
      .error ⟨"Refresh token has been revoked", 401⟩ := by
  unfold AuthService.verifyRefreshToken
  cases hf : RefreshTokenRepository.findByToken st.tokens tok with
  | none => simp
  | some rt =>
    have hp := List.find?_some hf
    simp only [Bool.and_eq_true] at hp
    by_cases hd : AuthService.dateLt rt.expiresAt now
    · simp [hd]
    · simp only [hd, Bool.false_eq_true, if_false, hp.1.2, Bool.not_true]
      cases hu : UserRepository.findById st.users rt.userId with
      | none => simp
      | some u => by_cases ha : u.isActive <;> simp [ha]

theorem find?_append_left_none {α : Type} (p : α → Bool) (l1 l2 : List α)
    (h : l1.find? p = none) : (l1 ++ l2).find? p = l2.find? p := by
  rw [List.find?_append, h, Option.none_or]

theorem register_users_after (cfg : JwtConfig) (hash : String → String) (now : Int)
    (newId newToken : String) (st : AuthState) (data : RegisterDto) (ua ip : Option String)
    (h : UserRepository.findByEmail st.users data.email = none) :
    (AuthService.register cfg hash now newId newToken st data ua ip).2.users =
      st.users ++ [AuthService.registeredUser hash newId data] := by
  simp [AuthService.register, h, AuthService.createRefreshToken]

theorem register_conflict_of_found (cfg : JwtConfig) (hash : String → String) (now : Int)
    (newId newToken : String) (st : AuthState) (data : RegisterDto) (ua ip : Option String)
    (u : User) (h : UserRepository.findByEmail st.users data.email = some u) :
    AuthService.register cfg hash now newId newToken st data ua ip =
      (.error ⟨"User with this email already exists", 409⟩, st) := by
  simp [AuthService.register, h]

/-- C1: a present, unexpired, active session owned by an active user makes
refresh succeed, reuse the refresh token unchanged and mint an access token
from the owner's current stored identity fields. -/
theorem C1_refresh_success (cfg : JwtConfig) (now : Int) (st : AuthState)
    (tok : String) (rt : RefreshToken) (u : User)
    (hf : RefreshTokenRepository.findByToken st.tokens tok = some rt)
    (hexp : AuthService.dateLt rt.expiresAt now = false)
    (hu : UserRepository.findById st.users rt.userId = some u)
    (hact : u.isActive = true) :
    AuthService.refreshToken cfg now st ⟨tok⟩ =
      (.ok ⟨AuthService.generateAccessToken cfg now ⟨u.id, u.email, u.role⟩, tok⟩, st) := by
  have hp := List.find?_some hf
  simp only [Bool.and_eq_true] at hp
  simp [AuthService.refreshToken, AuthService.verifyRefreshToken, hf, hexp, hp.1.2, hu, hact]

theorem C1_witness :
    AuthService.refreshToken cfg0 500 st0 ⟨"r1"⟩ =
      (.ok ⟨AuthService.generateAccessToken cfg0 500 ⟨"u1", "jane@x.com", .user⟩, "r1"⟩, st0) :=
  C1_refresh_success cfg0 500 st0 "r1" tokA1 user1 rfl rfl rfl rfl

/-- C2: verifying an access token issued with given claims returns those
claims before the TTL elapses and fails with the 401 error after. -/
theorem C2_roundtrip (cfg : JwtConfig) (p : JWTPayload) (iat now : Int) :
    (now < iat + cfg.expiresIn →
      AuthService.verifyToken cfg now (AuthService.generateAccessToken cfg iat p) = .ok p) ∧
    (iat + cfg.expiresIn < now →
      AuthService.verifyToken cfg now (AuthService.generateAccessToken cfg iat p) =
        .error ⟨"Invalid or expired token", 401⟩) := by
  constructor <;> intro h
  · simp [AuthService.verifyToken, AuthService.generateAccessToken, Jwt.sign, Jwt.verify, h]
  · have h2 : ¬ now < iat + cfg.expiresIn := by omega
    simp [AuthService.verifyToken, AuthService.generateAccessToken, Jwt.sign, Jwt.verify, h2]

theorem C2_witness :
    AuthService.verifyToken cfg0 0 (AuthService.generateAccessToken cfg0 0 payload0) = .ok payload0 ∧
    AuthService.verifyToken cfg0 2000000 (AuthService.generateAccessToken cfg0 0 payload0) =
      .error ⟨"Invalid or expired token", 401⟩ :=
  ⟨(C2_roundtrip cfg0 payload0 0 0).1 (by decide),
   (C2_roundtrip cfg0 payload0 0 2000000).2 (by decide)⟩

/-- C3: refresh on a present, expired session fails with the expired 401
error, deactivates that session as a side effect, and a repeated refresh on
the resulting state fails again with a 401 error leaving the state (hence
the deactivation) unchanged. -/
theorem C3_refresh_expired (cfg : JwtConfig) (now now2 : Int) (st : AuthState)
    (tok : String) (rt : RefreshToken)
    (hf : RefreshTokenRepository.findByToken st.tokens tok = some rt)
    (hexp : AuthService.dateLt rt.expiresAt now = true) :
    (AuthService.refreshToken cfg now st ⟨tok⟩).1 = .error ⟨"Refresh token expired", 401⟩ ∧
    (AuthService.refreshToken cfg now st ⟨tok⟩).2.tokens =
      RefreshTokenRepository.revokeToken st.tokens tok ∧
    (∀ t ∈ (AuthService.refreshToken cfg now st ⟨tok⟩).2.tokens,
       t.token = tok → t.isActive = false) ∧
    AuthService.refreshToken cfg now2 (AuthService.refreshToken cfg now st ⟨tok⟩).2 ⟨tok⟩ =
      (.error ⟨"Invalid refresh token", 401⟩, (AuthService.refreshToken cfg now st ⟨tok⟩).2) := by
  have hfire : AuthService.refreshToken cfg now st ⟨tok⟩ =
      (.error ⟨"Refresh token expired", 401⟩,
       { st with tokens := RefreshTokenRepository.revokeToken st.tokens tok }) := by
    simp [AuthService.refreshToken, AuthService.verifyRefreshToken, hf, hexp]
  refine ⟨by rw [hfire], by rw [hfire], ?_, ?_⟩
  · rw [hfire]
    exact revokeToken_inactive st.tokens tok
  · rw [hfire]
    simp [AuthService.refreshToken, AuthService.verifyRefreshToken, findByToken_revokeToken]

theorem C3_witness :
    (AuthService.refreshToken cfg0 500 stExp ⟨"rx"⟩).1 = .error ⟨"Refresh token expired", 401⟩ :=
  (C3_refresh_expired cfg0 500 600 stExp "rx" tokExpired rfl rfl).1

/-- C4 counterexample: a stored but deactivated session makes refresh fail
with the generic invalid-token error, not the distinct revoked error the
claim says is reached. -/
theorem C4_counterexample :
    (AuthService.refreshToken cfg0 500 stRevoked ⟨"r2"⟩).1 =
      .error ⟨"Invalid refresh token", 401⟩ ∧
    (AuthService.refreshToken cfg0 500 stRevoked ⟨"r2"⟩).1 ≠
      .error ⟨"Refresh token has been revoked", 401⟩ := by
  constructor
  · rfl
  · intro h
    rw [show (AuthService.refreshToken cfg0 500 stRevoked ⟨"r2"⟩).1 =
        .error ⟨"Invalid refresh token", 401⟩ from rfl] at h
    simp at h

/-- C4 amended: refresh on a token whose stored session is deactivated
fails with AuthenticationError 401, but through the same invalid-token
branch used for unknown tokens; the dedicated revoked branch is
unreachable because the repository lookup filters out inactive rows. -/
theorem C4_amended_revoked_generic (cfg : JwtConfig) (now : Int) (st : AuthState) (tok : String)
    (_hsome : ∃ rt ∈ st.tokens, rt.token = tok ∧ rt.isActive = false)
    (hall : ∀ t ∈ st.tokens, t.token = tok → t.isActive = false) :
    AuthService.refreshToken cfg now st ⟨tok⟩ = (.error ⟨"Invalid refresh token", 401⟩, st) ∧
    ∀ (st2 : AuthState) (now2 : Int) (tok2 : String),
      (AuthService.refreshToken cfg now2 st2 ⟨tok2⟩).1 ≠
        .error ⟨"Refresh token has been revoked", 401⟩ := by
  constructor
  · have hnone : RefreshTokenRepository.findByToken st.tokens tok = none := by
      rw [RefreshTokenRepository.findByToken, List.find?_eq_none]
      intro x hx
      simp only [Bool.and_eq_true, beq_iff_eq]
      rintro ⟨⟨hxt, hxa⟩, -⟩
      rw [hall x hx hxt] at hxa
      exact absurd hxa (by simp)
    simp [AuthService.refreshToken, AuthService.verifyRefreshToken, hnone]
  · intro st2 now2 tok2
    simp only [AuthService.refreshToken]
    cases hv : AuthService.verifyRefreshToken st2 now2 tok2 with
    | mk fst snd =>
      cases fst with
      | error e =>
        have hne := verifyRefreshToken_ne_revoked st2 now2 tok2
        rw [hv] at hne
        simpa using hne
      | ok payload => simp

theorem C4_amended_witness :
    AuthService.refreshToken cfg0 500 stRevoked ⟨"r2"⟩ =
      (.error ⟨"Invalid refresh token", 401⟩, stRevoked) :=
  (C4_amended_revoked_generic cfg0 500 stRevoked "r2" (by decide) (by decide)).1

/-- C5 counterexample: for an inactive stored user, a wrong-password login
fails with the 403 deactivated error while an unknown-email login fails
with the 401 invalid-credentials error, so the two failures are
distinguishable, contradicting the claim's quantification over every
stored user. -/
theorem C5_counterexample :
    cmp0 "wrong" userInactive.password = false ∧
    (AuthService.login cfg0 cmp0 0 "t" stC5 ⟨"bob@x.com", "wrong"⟩ none none).1 =
      .error ⟨"Account is deactivated", 403⟩ ∧
    (AuthService.login cfg0 cmp0 0 "t" stC5 ⟨"ghost@x.com", "wrong"⟩ none none).1 =
      .error ⟨"Invalid email or password", 401⟩ ∧
    (⟨"Account is deactivated", 403⟩ : AppError) ≠ ⟨"Invalid email or password", 401⟩ :=
  ⟨rfl, rfl, rfl, by decide⟩

/-- C5 amended: for every stored active user, a wrong-password login and an
unknown-email login fail with the identical error kind and message. -/
theorem C5_amended_enumeration (cfg : JwtConfig) (compare : String → String → Bool)
    (now : Int) (ntk1 ntk2 : String) (st : AuthState) (d1 d2 : LoginDto)
    (ua1 ip1 ua2 ip2 : Option String) (u : User)
    (h1 : UserRepository.findByEmail st.users d1.email = some u)
    (hact : u.isActive = true)
    (hpw : compare d1.password u.password = false)
    (h2 : UserRepository.findByEmail st.users d2.email = none) :
    (AuthService.login cfg compare now ntk1 st d1 ua1 ip1).1 =
        .error ⟨"Invalid email or password", 401⟩ ∧
    (AuthService.login cfg compare now ntk2 st d2 ua2 ip2).1 =
        .error ⟨"Invalid email or password", 401⟩ := by
  constructor
  · simp [AuthService.login, h1, hact, hpw]
  · simp [AuthService.login, h2]

theorem C5_witness :
    (AuthService.login cfg0 cmp0 0 "t1" st0 ⟨"jane@x.com", "wrong"⟩ none none).1 =
        .error ⟨"Invalid email or password", 401⟩ ∧
    (AuthService.login cfg0 cmp0 0 "t2" st0 ⟨"ghost@x.com", "pw"⟩ none none).1 =
        .error ⟨"Invalid email or password", 401⟩ :=
  C5_amended_enumeration cfg0 cmp0 0 "t1" "t2" st0 ⟨"jane@x.com", "wrong"⟩ ⟨"ghost@x.com", "pw"⟩
    none none none none user1 rfl rfl rfl rfl

/-- C6: once a registration with a given normalized email has succeeded, a
second route-level registration with the same normalized email fails with
the 409 conflict error and changes nothing. -/
theorem C6_register_conflict (cfg : JwtConfig) (hash : String → String) (now1 now2 : Int)
    (id1 tk1 id2 tk2 : String) (st : AuthState) (d1 d2 : RegisterDto)
    (ua1 ip1 ua2 ip2 : Option String)
    (hnone : UserRepository.findByEmail st.users (normalizeEmail d1.email) = none)
    (hsame : normalizeEmail d2.email = normalizeEmail d1.email) :
    registerRoute cfg hash now2 id2 tk2
        (registerRoute cfg hash now1 id1 tk1 st d1 ua1 ip1).2 d2 ua2 ip2 =
      (.error ⟨"User with this email already exists", 409⟩,
       (registerRoute cfg hash now1 id1 tk1 st d1 ua1 ip1).2) := by
  have husers : (registerRoute cfg hash now1 id1 tk1 st d1 ua1 ip1).2.users =
      st.users ++
        [AuthService.registeredUser hash id1 { d1 with email := normalizeEmail d1.email }] := by
    unfold registerRoute
    exact register_users_after cfg hash now1 id1 tk1 st _ ua1 ip1 hnone
  have hfind : UserRepository.findByEmail
      (registerRoute cfg hash now1 id1 tk1 st d1 ua1 ip1).2.users (normalizeEmail d2.email) =
      some (AuthService.registeredUser hash id1 { d1 with email := normalizeEmail d1.email }) := by
    rw [husers, hsame, UserRepository.findByEmail, find?_append_left_none _ _ _ hnone]
    simp [List.find?, AuthService.registeredUser]
  unfold registerRoute
  exact register_conflict_of_found _ _ _ _ _ _ _ _ _ _ hfind

theorem C6_witness :
    registerRoute cfg0 hash0 0 "id2" "tk2"
        (registerRoute cfg0 hash0 0 "id1" "tk1" stEmpty
          ⟨"Jane", "Jane@X.com", "secret1", none⟩ none none).2
        ⟨"Janet", "JANE@x.com", "secret2", none⟩ none none =
      (.error ⟨"User with this email already exists", 409⟩,
       (registerRoute cfg0 hash0 0 "id1" "tk1" stEmpty
          ⟨"Jane", "Jane@X.com", "secret1", none⟩ none none).2) :=
  C6_register_conflict cfg0 hash0 0 0 "id1" "tk1" "id2" "tk2" stEmpty
    ⟨"Jane", "Jane@X.com", "secret1", none⟩ ⟨"Janet", "JANE@x.com", "secret2", none⟩
    none none none none rfl rfl

/-- C7: logout keeps every session row, leaves sessions with other token
strings untouched, deactivates every row with the named token string, is
idempotent on the state, and makes a subsequent refresh with that token
fail with the 401 invalid-token error. -/
theorem C7_logout (cfg : JwtConfig) (now : Int) (st : AuthState) (tok : String) :
    (AuthService.revokeRefreshToken st tok).2.tokens.length = st.tokens.length ∧
    (∀ t ∈ st.tokens, t.token ≠ tok → t ∈ (AuthService.revokeRefreshToken st tok).2.tokens) ∧
    (∀ t ∈ (AuthService.revokeRefreshToken st tok).2.tokens, t.token = tok → t.isActive = false) ∧
    (AuthService.revokeRefreshToken (AuthService.revokeRefreshToken st tok).2 tok).2 =
      (AuthService.revokeRefreshToken st tok).2 ∧
    (AuthService.refreshToken cfg now (AuthService.revokeRefreshToken st tok).2 ⟨tok⟩).1 =
      .error ⟨"Invalid refresh token", 401⟩ := by
  refine ⟨?_, ?_, ?_, ?_, ?_⟩
  · simp [AuthService.revokeRefreshToken, RefreshTokenRepository.revokeToken]
  · intro t ht hne
    exact revokeToken_mem_of_ne ht hne
  · exact revokeToken_inactive st.tokens tok
  · simp [AuthService.revokeRefreshToken, revokeToken_idem]
  · simp [AuthService.refreshToken, AuthService.verifyRefreshToken,
      AuthService.revokeRefreshToken, findByToken_revokeToken]

theorem C7_witness :
    (AuthService.refreshToken cfg0 0 (AuthService.revokeRefreshToken st0 "r1").2 ⟨"r1"⟩).1 =
      .error ⟨"Invalid refresh token", 401⟩ :=
  (C7_logout cfg0 0 st0 "r1").2.2.2.2

/-- C8: logout-all maps each session row as follows — active rows of the
named identity become the same row with the active flag cleared, rows of
other identities are returned unchanged, and already-inactive rows are
returned unchanged. -/
theorem C8_logout_all (st : AuthState) (uid : String) :
    List.Forall₂ (fun t t2 =>
        (t.userId = uid ∧ t.isActive = true → t2 = { t with isActive := false }) ∧
        (t.userId ≠ uid → t2 = t) ∧
        (t.isActive = false → t2 = t))
      st.tokens (AuthService.revokeAllUserTokens st uid).2.tokens := by
  show List.Forall₂ _ st.tokens (RefreshTokenRepository.revokeAllUserTokens st.tokens uid)
  generalize st.tokens = l
  induction l with
  | nil => exact List.Forall₂.nil
  | cons t ts ih =>
    simp only [RefreshTokenRepository.revokeAllUserTokens, List.map_cons] at ih ⊢
    refine List.Forall₂.cons ?_ ih
    refine ⟨fun hcond => ?_, fun hne => ?_, fun hinact => ?_⟩
    · simp [hcond.1, hcond.2]
    · simp [hne]
    · simp [hinact]

theorem C8_witness :
    List.Forall₂ (fun t t2 =>
        (t.userId = "A" ∧ t.isActive = true → t2 = { t with isActive := false }) ∧
        (t.userId ≠ "A" → t2 = t) ∧
        (t.isActive = false → t2 = t))
      stFleet.tokens (AuthService.revokeAllUserTokens stFleet "A").2.tokens :=
  C8_logout_all stFleet "A"

/-- C9: the register route stores the normalized email, and the normalized
lookup the login route performs finds the registered user for every casing
variant of the registered email. -/
theorem C9_email_case (cfg : JwtConfig) (hash : String → String) (now : Int)
    (newId newToken : String) (st : AuthState) (data : RegisterDto)
    (ua ip : Option String) (e2 : String)
    (hnone : UserRepository.findByEmail st.users (normalizeEmail data.email) = none)
    (hcase : normalizeEmail e2 = normalizeEmail data.email) :
    UserRepository.findByEmail
        (registerRoute cfg hash now newId newToken st data ua ip).2.users
        (normalizeEmail e2) =
      some (AuthService.registeredUser hash newId
        { data with email := normalizeEmail data.email }) := by
  have husers : (registerRoute cfg hash now newId newToken st data ua ip).2.users =
      st.users ++
        [AuthService.registeredUser hash newId { data with email := normalizeEmail data.email }] := by
    unfold registerRoute
    exact register_users_after cfg hash now newId newToken st _ ua ip hnone
  rw [husers, hcase, UserRepository.findByEmail, find?_append_left_none _ _ _ hnone]
  simp [List.find?, AuthService.registeredUser]

theorem C9_witness :
    UserRepository.findByEmail
        (registerRoute cfg0 hash0 0 "id1" "tk1" stEmpty
          ⟨"Jane", "Jane@X.com", "secret1", none⟩ none none).2.users
        (normalizeEmail "jane@X.COM") =
      some (AuthService.registeredUser hash0 "id1"
        ⟨"Jane", normalizeEmail "Jane@X.com", "secret1", none⟩) :=
  C9_email_case cfg0 hash0 0 "id1" "tk1" stEmpty
    ⟨"Jane", "Jane@X.com", "secret1", none⟩ none none "jane@X.COM" rfl rfl

/-- C10: sessions created by login and register store an expiry equal to
`now` advanced by parseInt(refresh TTL with its first 'd' removed) whole
days; a TTL of "12h" therefore lands 12 days ahead and a TTL with no
leading integer yields an invalid expiry. -/
theorem C10_refresh_ttl (cfg : JwtConfig) (compare : String → String → Bool)
    (hash : String → String) (now : Int) (newId ntk1 ntk2 : String)
    (st : AuthState) (dl : LoginDto) (dr : RegisterDto) (ua ip : Option String) (u : User)
    (h1 : UserRepository.findByEmail st.users dl.email = some u)
    (hact : u.isActive = true)
    (hpw : compare dl.password u.password = true)
    (h2 : UserRepository.findByEmail st.users dr.email = none) :
    (AuthService.login cfg compare now ntk1 st dl ua ip).2.tokens =
      st.tokens ++ [AuthService.sessionRecord cfg now u.id ntk1 ua ip] ∧
    (AuthService.register cfg hash now newId ntk2 st dr ua ip).2.tokens =
      st.tokens ++ [AuthService.sessionRecord cfg now newId ntk2 ua ip] ∧
    (AuthService.sessionRecord cfg now u.id ntk1 ua ip).expiresAt =
      (AuthService.jsParseInt (AuthService.replaceD cfg.refreshExpiresIn)).map
        (fun days => now + days * AuthService.msPerDay) ∧
    AuthService.getRefreshTokenExpiration { cfg with refreshExpiresIn := "12h" } now =
      some (now + 12 * AuthService.msPerDay) ∧
    AuthService.getRefreshTokenExpiration { cfg with refreshExpiresIn := "abc" } now = none := by
  refine ⟨?_, ?_, rfl, rfl, rfl⟩
  · simp [AuthService.login, h1, hact, hpw, AuthService.createRefreshToken]
  · simp [AuthService.register, h2, AuthService.createRefreshToken,
      AuthService.registeredUser]

theorem C10_witness :
    AuthService.getRefreshTokenExpiration { cfg0 with refreshExpiresIn := "12h" } 0 =
      some (0 + 12 * AuthService.msPerDay) :=
  (C10_refresh_ttl cfg0 cmp0 hash0 0 "id1" "t1" "t2" st0 ⟨"jane@x.com", "secret1"⟩
    ⟨"New", "new@x.com", "pw", none⟩ none none user1 rfl rfl rfl rfl).2.2.2.1

end Takteeki
